import Mathlib

/-!
Shallow embedding of the VolumeBooster settings/state core:
`src/storage/SettingsManager.ts`, `src/storage/StorageManager.ts`,
`src/components/VolumeBooster.tsx` (boost handler) and the Android
`VolumeBoosterService` (background boost controller).

JavaScript numbers are modelled as rationals; a JavaScript value that may
have the wrong dynamic type is modelled by the inductive `JsValue`.
-/

/-- Dynamic JavaScript value as seen by `validateSettings` after
`JSON.parse`: a number, a boolean, a string, `null`, or `undefined`
(the result of reading an absent property). -/
inductive JsValue where
  | num (q : ℚ)
  | bool (b : Bool)
  | str (s : String)
  | null
  | undef
deriving DecidableEq

/-- A candidate settings record: an object whose six properties are read
dynamically (an absent property reads as `JsValue.undef`). -/
structure RawSettings where
  volume : JsValue
  boost : JsValue
  gradualBoost : JsValue
  appOnlyBoost : JsValue
  boostEnabled : JsValue
  autoVolumeEnabled : JsValue
deriving DecidableEq

/-- Mirrors `ValidationResult` in SettingsManager.ts. -/
structure ValidationResult where
  isValid : Bool
  errors : List String
deriving DecidableEq

/-- `typeof v === 'number' && lo <= v && v <= hi`
(the TS condition is written negated: wrong type or out of range). -/
def JsValue.isNumberInRange (v : JsValue) (lo hi : ℚ) : Bool :=
  match v with
  | .num q => decide (lo ≤ q) && decide (q ≤ hi)
  | _ => false

/-- `typeof v === 'boolean'`. -/
def JsValue.isBoolean (v : JsValue) : Bool :=
  match v with
  | .bool _ => true
  | _ => false

namespace SettingsManager

/-- `SettingsManager.validateSettings`: pushes one error message per
violated field check, in source order; the record is valid iff the error
list is empty.  The leading `typeof settings !== 'object'` guard is
vacuous here because `RawSettings` only models object candidates. -/
def validateSettings (settings : RawSettings) : ValidationResult :=
  let errors : List String :=
    (if settings.volume.isNumberInRange 0 100 then []
     else ["Volume must be a number between 0 and 100"]) ++
    (if settings.boost.isNumberInRange 0 200 then []
     else ["Boost must be a number between 0 and 200"]) ++
    (if settings.gradualBoost.isBoolean then []
     else ["GradualBoost must be a boolean"]) ++
    (if settings.appOnlyBoost.isBoolean then []
     else ["AppOnlyBoost must be a boolean"]) ++
    (if settings.boostEnabled.isBoolean then []
     else ["BoostEnabled must be a boolean"]) ++
    (if settings.autoVolumeEnabled.isBoolean then []
     else ["AutoVolumeEnabled must be a boolean"])
  { isValid := errors.isEmpty, errors := errors }

end SettingsManager

/-- The statically typed `AppSettings` interface. -/
structure AppSettings where
  volume : ℚ
  boost : ℚ
  gradualBoost : Bool
  appOnlyBoost : Bool
  boostEnabled : Bool
  autoVolumeEnabled : Bool
deriving DecidableEq

/-- `SettingsManager.defaultSettings`. -/
def defaultSettings : AppSettings :=
  { volume := 100
    boost := 0
    gradualBoost := false
    appOnlyBoost := false
    boostEnabled := false
    autoVolumeEnabled := false }

/-- `keyof AppSettings`. -/
inductive SettingKey where
  | volume
  | boost
  | gradualBoost
  | appOnlyBoost
  | boostEnabled
  | autoVolumeEnabled
deriving DecidableEq

/-- The TypeScript value type `AppSettings[K]` of each key. -/
@[reducible]
def SettingKey.Val : SettingKey → Type
  | .volume => ℚ
  | .boost => ℚ
  | .gradualBoost => Bool
  | .appOnlyBoost => Bool
  | .boostEnabled => Bool
  | .autoVolumeEnabled => Bool

instance (k : SettingKey) : DecidableEq k.Val := by
  cases k <;> dsimp [SettingKey.Val] <;> infer_instance

/-- Property read `settings[key]`. -/
def AppSettings.get (s : AppSettings) : (k : SettingKey) → k.Val
  | .volume => s.volume
  | .boost => s.boost
  | .gradualBoost => s.gradualBoost
  | .appOnlyBoost => s.appOnlyBoost
  | .boostEnabled => s.boostEnabled
  | .autoVolumeEnabled => s.autoVolumeEnabled

/-- Property write `{ ...settings, [key]: value }`. -/
def AppSettings.set (s : AppSettings) : (k : SettingKey) → k.Val → AppSettings
  | .volume, v => { s with volume := v }
  | .boost, v => { s with boost := v }
  | .gradualBoost, v => { s with gradualBoost := v }
  | .appOnlyBoost, v => { s with appOnlyBoost := v }
  | .boostEnabled, v => { s with boostEnabled := v }
  | .autoVolumeEnabled, v => { s with autoVolumeEnabled := v }

/-- View a statically typed record as a dynamic one (what
`validateSettings` observes when handed an `AppSettings`). -/
def AppSettings.toRaw (s : AppSettings) : RawSettings :=
  { volume := .num s.volume
    boost := .num s.boost
    gradualBoost := .bool s.gradualBoost
    appOnlyBoost := .bool s.appOnlyBoost
    boostEnabled := .bool s.boostEnabled
    autoVolumeEnabled := .bool s.autoVolumeEnabled }

/-- Extract the number stored in a dynamic value, if any. -/
def JsValue.asNum : JsValue → Option ℚ
  | .num q => some q
  | _ => none

/-- Extract the boolean stored in a dynamic value, if any. -/
def JsValue.asBool : JsValue → Option Bool
  | .bool b => some b
  | _ => none

/-- Adoption of a loaded record, `this.settings = { ...result.data }`.
Only reached on records that passed `validateSettings`, where every field
has the shape its extractor expects; the fallbacks are never exercised on
that path. -/
def RawSettings.toApp (r : RawSettings) : AppSettings :=
  { volume := r.volume.asNum.getD 0
    boost := r.boost.asNum.getD 0
    gradualBoost := r.gradualBoost.asBool.getD false
    appOnlyBoost := r.appOnlyBoost.asBool.getD false
    boostEnabled := r.boostEnabled.asBool.getD false
    autoVolumeEnabled := r.autoVolumeEnabled.asBool.getD false }

/-- `SettingsChangeEvent` as delivered to listeners. -/
structure SettingsChangeEvent where
  key : SettingKey
  oldValue : JsValue
  newValue : JsValue
  timestamp : Nat
deriving DecidableEq

/-- Dynamic view of a typed field value, for event payloads. -/
def SettingKey.toJs : (k : SettingKey) → k.Val → JsValue
  | .volume, v => .num v
  | .boost, v => .num v
  | .gradualBoost, v => .bool v
  | .appOnlyBoost, v => .bool v
  | .boostEnabled, v => .bool v
  | .autoVolumeEnabled, v => .bool v

/-- Observable outcome of a SettingsManager mutation: the returned
boolean, the in-memory record afterwards, the change events delivered to
listeners, and the record handed to `saveSettings` (none if no save was
attempted).  `saveSettings` itself catches every storage failure and
returns void, so the store outcome is not part of this record. -/
structure SetResult where
  ok : Bool
  settings : AppSettings
  events : List SettingsChangeEvent
  saved : Option AppSettings
deriving DecidableEq

namespace SettingsManager

/-- `getSetting`: before initialization it warns and returns the
compiled-in default for the key; afterwards the current in-memory value. -/
def getSetting (isInitialized : Bool) (settings : AppSettings) (k : SettingKey) : k.Val :=
  if isInitialized = false then defaultSettings.get k
  else settings.get k

/-- `getAllSettings`: defaults before initialization, else a copy of the
current record. -/
def getAllSettings (isInitialized : Bool) (settings : AppSettings) : AppSettings :=
  if isInitialized = false then defaultSettings
  else settings

/-- `setSetting(key, value)`.  `saveFails` is the terminal outcome of the
storage write performed by `saveSettings`; the code awaits the save but
only logs its result, so no branch below inspects `saveFails`. -/
def setSetting (isInitialized : Bool) (settings : AppSettings)
    (k : SettingKey) (v : k.Val) (now : Nat) (saveFails : Bool) : SetResult :=
  if isInitialized = false then
    { ok := false, settings := settings, events := [], saved := none }
  else
    let oldValue := settings.get k
    let tempSettings := settings.set k v
    let validation := validateSettings tempSettings.toRaw
    if validation.isValid = false then
      { ok := false, settings := settings, events := [], saved := none }
    else
      { ok := true
        settings := tempSettings
        saved := some tempSettings
        events := [{ key := k, oldValue := k.toJs oldValue,
                     newValue := k.toJs v, timestamp := now }] }

/-- `Partial<AppSettings>`: each property either absent or present. -/
structure PartialSettings where
  volume : Option ℚ := none
  boost : Option ℚ := none
  gradualBoost : Option Bool := none
  appOnlyBoost : Option Bool := none
  boostEnabled : Option Bool := none
  autoVolumeEnabled : Option Bool := none
deriving DecidableEq

/-- Spread merge `{ ...this.settings, ...partial }`. -/
def PartialSettings.mergeInto (p : PartialSettings) (s : AppSettings) : AppSettings :=
  { volume := p.volume.getD s.volume
    boost := p.boost.getD s.boost
    gradualBoost := p.gradualBoost.getD s.gradualBoost
    appOnlyBoost := p.appOnlyBoost.getD s.appOnlyBoost
    boostEnabled := p.boostEnabled.getD s.boostEnabled
    autoVolumeEnabled := p.autoVolumeEnabled.getD s.autoVolumeEnabled }

/-- `Object.keys(partial)`: the keys present in the partial record.  The
iteration order of a JavaScript object is its insertion order; we fix the
field-declaration order as the deterministic representative. -/
def PartialSettings.keys (p : PartialSettings) : List SettingKey :=
  (if p.volume.isSome then [SettingKey.volume] else []) ++
  (if p.boost.isSome then [SettingKey.boost] else []) ++
  (if p.gradualBoost.isSome then [SettingKey.gradualBoost] else []) ++
  (if p.appOnlyBoost.isSome then [SettingKey.appOnlyBoost] else []) ++
  (if p.boostEnabled.isSome then [SettingKey.boostEnabled] else []) ++
  (if p.autoVolumeEnabled.isSome then [SettingKey.autoVolumeEnabled] else [])

/-- All six keys in declaration order, `Object.keys(this.defaultSettings)`. -/
def allKeys : List SettingKey :=
  [SettingKey.volume, SettingKey.boost, SettingKey.gradualBoost,
   SettingKey.appOnlyBoost, SettingKey.boostEnabled, SettingKey.autoVolumeEnabled]

/-- One change event per key whose value differs between the old and the
new record (`oldSettings[key] !== this.settings[key]`). -/
def changedEvents (keys : List SettingKey) (oldS newS : AppSettings) (now : Nat) :
    List SettingsChangeEvent :=
  keys.filterMap fun k =>
    if oldS.get k = newS.get k then none
    else some { key := k, oldValue := k.toJs (oldS.get k),
                newValue := k.toJs (newS.get k), timestamp := now }

/-- `setMultipleSettings(partial)`. -/
def setMultipleSettings (isInitialized : Bool) (settings : AppSettings)
    (p : PartialSettings) (now : Nat) (saveFails : Bool) : SetResult :=
  if isInitialized = false then
    { ok := false, settings := settings, events := [], saved := none }
  else
    let tempSettings := p.mergeInto settings
    let validation := validateSettings tempSettings.toRaw
    if validation.isValid = false then
      { ok := false, settings := settings, events := [], saved := none }
    else
      { ok := true
        settings := tempSettings
        saved := some tempSettings
        events := changedEvents p.keys settings tempSettings now }

/-- `resetToDefaults()`. -/
def resetToDefaults (isInitialized : Bool) (settings : AppSettings)
    (now : Nat) (saveFails : Bool) : SetResult :=
  if isInitialized = false then
    { ok := false, settings := settings, events := [], saved := none }
  else
    { ok := true
      settings := defaultSettings
      saved := some defaultSettings
      events := changedEvents allKeys settings defaultSettings now }

/-- Outcome of `storageManager.getItem` for the settings key: a parsed
record, a successful miss (`data` undefined, which also covers
`success:false` results since both take the same branch), or a thrown
error (caught by `loadSettings`). -/
inductive GetOutcome where
  | found (r : RawSettings)
  | notFound
  | threw (msg : String)
deriving DecidableEq

/-- `loadSettings()`: returns the resulting in-memory record and the
record passed to `saveSettings` (none when no save was attempted). -/
def loadSettings (g : GetOutcome) : AppSettings × Option AppSettings :=
  match g with
  | .found r =>
      if (validateSettings r).isValid then (r.toApp, none)
      else (defaultSettings, some defaultSettings)
  | .notFound => (defaultSettings, some defaultSettings)
  | .threw _ => (defaultSettings, some defaultSettings)

/-- The manager state reached by `initialize()` (storage initialization
assumed successful, so the load outcome `g` is available): the settings
coming out of `loadSettings`, the `isInitialized := true` flag, and the
record persisted back, if any. -/
def initializeResult (g : GetOutcome) : (AppSettings × Bool) × Option AppSettings :=
  let (s, saved) := loadSettings g
  ((s, true), saved)

/-- `clearSettings(removeOk)`: the method performs no initialization
check; it always issues `storageManager.removeItem` and returns that
outcome.  First component: the returned boolean; second: whether the
remove was issued against the store. -/
def clearSettings (isInitialized : Bool) (removeOk : Bool) : Bool × Bool :=
  (removeOk, true)

/-- `addChangeListener`: pushes onto the listener array.  Listeners are
compared by reference identity, modelled by a numeric identifier. -/
def addChangeListener (listeners : List Nat) (l : Nat) : List Nat :=
  listeners ++ [l]

/-- `removeChangeListener`: `indexOf` then `splice(index, 1)` when the
index is found, else no change. -/
def removeChangeListener (listeners : List Nat) (l : Nat) : List Nat :=
  let index := listeners.indexOf l
  if index < listeners.length then listeners.eraseIdx index
  else listeners

/-- `notifyChangeListeners`: every entry of the array is invoked once, in
order, with exceptions isolated per listener; the result is the sequence
of listener invocations for one event. -/
def notifyInvocations (listeners : List Nat) : List Nat :=
  listeners

end SettingsManager

/-- `StorageResult<T>` from StorageManager.ts. -/
structure StorageResult (α : Type) where
  success : Bool
  data : Option α := none
  error : Option String := none
deriving DecidableEq

/-- Outcome of one underlying AsyncStorage attempt: the produced value,
or a thrown error with its message (caught inside the retry loop). -/
inductive AttemptOutcome (α : Type) where
  | ok (a : α)
  | err (msg : String)
deriving DecidableEq

namespace StorageManager

/-- `config.retryAttempts` default. -/
def retryAttempts : Nat := 3

/-- The retry loop shared verbatim by `setItem`, `getItem`, `removeItem`:
attempt numbers count up from 1; each caught error becomes `lastError`;
the delay between attempts has no observable effect here.  Returns the
first successful value, or the last error message after exhaustion. -/
def runRetry {α : Type} (f : Nat → AttemptOutcome α)
    (attempt remaining : Nat) (lastError : Option String) : Sum α String :=
  match remaining with
  | 0 => Sum.inr (lastError.getD "undefined")
  | r + 1 =>
      match f attempt with
      | .ok a => Sum.inl a
      | .err m => runRetry f (attempt + 1) r (some m)

/-- `initialize()`: the AsyncStorage self-test (a get and a remove of a
disposable key) either succeeds, or throws; on a throw `initialize`
rethrows a wrapped error.  `selfTestFails = some m` models the failing
self-test. -/
def initializeStorage (selfTestFails : Option String) : Except String Unit :=
  match selfTestFails with
  | some m => Except.error ("Storage initialization failed: " ++ m)
  | none => Except.ok ()

/-- `setItem(key, value)`.  `Except.error` models an exception crossing
the public boundary; `Except.ok` a returned `StorageResult`.  When the
manager is not yet initialized the call lazily runs `initialize()` with
no surrounding try, so a failing self-test rethrows out of `setItem`. -/
def setItem (key : String) (isInitialized : Bool) (selfTestFails : Option String)
    (f : Nat → AttemptOutcome Unit) : Except String (StorageResult Unit) :=
  if isInitialized = false then
    match initializeStorage selfTestFails with
    | .error m => Except.error m
    | .ok _ =>
        match runRetry f 1 retryAttempts none with
        | .inl _ => Except.ok { success := true }
        | .inr last => Except.ok { success := false, error := some ("Failed to set item " ++ key ++ " after 3 attempts: " ++ last) }
  else
    match runRetry f 1 retryAttempts none with
    | .inl _ => Except.ok { success := true }
    | .inr last => Except.ok { success := false, error := some ("Failed to set item " ++ key ++ " after 3 attempts: " ++ last) }

/-- `getItem(key)`: an underlying attempt yields the parsed value
(`none` when the key is absent, which short-circuits to a successful
miss) or throws (I/O or JSON.parse, both caught by the loop). -/
def getItem (key : String) (isInitialized : Bool) (selfTestFails : Option String)
    (f : Nat → AttemptOutcome (Option RawSettings)) :
    Except String (StorageResult RawSettings) :=
  if isInitialized = false then
    match initializeStorage selfTestFails with
    | .error m => Except.error m
    | .ok _ =>
        match runRetry f 1 retryAttempts none with
        | .inl none => Except.ok { success := true, data := none }
        | .inl (some r) => Except.ok { success := true, data := some r }
        | .inr last => Except.ok { success := false, error := some ("Failed to get item " ++ key ++ " after 3 attempts: " ++ last) }
  else
    match runRetry f 1 retryAttempts none with
    | .inl none => Except.ok { success := true, data := none }
    | .inl (some r) => Except.ok { success := true, data := some r }
    | .inr last => Except.ok { success := false, error := some ("Failed to get item " ++ key ++ " after 3 attempts: " ++ last) }

/-- `removeItem(key)`. -/
def removeItem (key : String) (isInitialized : Bool) (selfTestFails : Option String)
    (f : Nat → AttemptOutcome Unit) : Except String (StorageResult Unit) :=
  if isInitialized = false then
    match initializeStorage selfTestFails with
    | .error m => Except.error m
    | .ok _ =>
        match runRetry f 1 retryAttempts none with
        | .inl _ => Except.ok { success := true }
        | .inr last => Except.ok { success := false, error := some ("Failed to remove item " ++ key ++ " after 3 attempts: " ++ last) }
  else
    match runRetry f 1 retryAttempts none with
    | .inl _ => Except.ok { success := true }
    | .inr last => Except.ok { success := false, error := some ("Failed to remove item " ++ key ++ " after 3 attempts: " ++ last) }

end StorageManager

/-- The LoudnessEnhancer instance state the service manipulates. -/
structure EnhancerState where
  session : Int
  targetGain : Int
  enabled : Bool
deriving DecidableEq

/-- VolumeBoosterService state: the audio session identifier generated at
`onCreate`, the optional LoudnessEnhancer, and the three boost fields. -/
structure ServiceState where
  audioSessionID : Int
  loudnessEnhancer : Option EnhancerState
  isBoostEnabled : Bool
  isAppOnlyBoost : Bool
  currentBoostLevel : Int
deriving DecidableEq

namespace VolumeBoosterService

/-- `setBoost(boostLevel, appOnly)`.  The two field assignments are plain
writes and cannot throw; the enhancer calls after them can.  `failAt`
numbers the throwing-capable call sites in program order (0 `release`,
1 the constructor, 2 `setTargetGain`, 3 `setEnabled`); `some n` means
site n throws, the catch block logs and the method returns with whatever
state was already built.  `updateNotification` does not touch modelled
state. -/
def setBoost (st : ServiceState) (boostLevel : Int) (appOnly : Bool)
    (failAt : Option Nat) : ServiceState :=
  let st1 := { st with currentBoostLevel := boostLevel, isAppOnlyBoost := appOnly }
  if failAt = some 0 then st1
  else
    let st2 := { st1 with loudnessEnhancer := none }
    if failAt = some 1 then st2
    else
      let fresh : EnhancerState :=
        { session := if appOnly then st.audioSessionID else 0, targetGain := 0, enabled := false }
      let st3 := { st2 with loudnessEnhancer := some fresh }
      if st3.isBoostEnabled && decide (boostLevel > 0) then
        if failAt = some 2 then st3
        else
          let st4 := { st3 with loudnessEnhancer := some { fresh with targetGain := boostLevel * 25 } }
          if failAt = some 3 then st4
          else
            { st3 with loudnessEnhancer := some { fresh with targetGain := boostLevel * 25, enabled := true } }
      else st3

/-- `enableBoost(enabled)`.  The `isBoostEnabled` assignment is a plain
write before any enhancer call; the enhancer calls are safe-calls that do
nothing when the enhancer is null.  `failAt` numbers the call sites in
order (0 `setTargetGain`, 1 `setEnabled`). -/
def enableBoost (st : ServiceState) (enabled : Bool) (failAt : Option Nat) :
    ServiceState :=
  let st1 := { st with isBoostEnabled := enabled }
  match st1.loudnessEnhancer with
  | none => st1
  | some e =>
      if enabled && decide (st1.currentBoostLevel > 0) then
        if failAt = some 0 then st1
        else
          let st2 := { st1 with loudnessEnhancer := some { e with targetGain := st1.currentBoostLevel * 25 } }
          if failAt = some 1 then st2
          else
            { st1 with loudnessEnhancer := some { e with targetGain := st1.currentBoostLevel * 25, enabled := true } }
      else
        if failAt = some 0 then st1
        else
          let st2 := { st1 with loudnessEnhancer := some { e with targetGain := 0 } }
          if failAt = some 1 then st2
          else
            { st1 with loudnessEnhancer := some { e with targetGain := 0, enabled := false } }

/-- `getCurrentBoostLevel()`. -/
def getCurrentBoostLevel (st : ServiceState) : Int :=
  st.currentBoostLevel

/-- `isBoostActive()`: enabled and level strictly positive. -/
def isBoostActive (st : ServiceState) : Bool :=
  st.isBoostEnabled && decide (st.currentBoostLevel > 0)

/-- `isAppOnlyMode()`. -/
def isAppOnlyMode (st : ServiceState) : Bool :=
  st.isAppOnlyBoost

end VolumeBoosterService

/-- `Math.round` on a rational: nearest integer, halves toward positive
infinity. -/
def jsRound (q : ℚ) : ℤ :=
  ⌊q + 1 / 2⌋

/-- `handleBoostChange(value)` from VolumeBooster.tsx, restricted to its
settings effect: in gradual mode the exact slider value is used, in
discrete mode the value is snapped by `Math.round(value / 10) * 10`; the
processed value is then written through `setSetting('boost', ...)`. -/
def handleBoostChange (gradualBoost : Bool) (value : ℚ)
    (isInitialized : Bool) (settings : AppSettings) (now : Nat) (saveFails : Bool) :
    SetResult :=
  let boostValue : ℚ := if gradualBoost then value else (jsRound (value / 10) : ℚ) * 10
  SettingsManager.setSetting isInitialized settings SettingKey.boost boostValue now saveFails

/-! ### Helper lemmas -/

lemma isNumberInRange_iff (v : JsValue) (lo hi : ℚ) :
    v.isNumberInRange lo hi = true ↔ ∃ q : ℚ, v = JsValue.num q ∧ lo ≤ q ∧ q ≤ hi := by
  cases v <;> simp [JsValue.isNumberInRange, and_assoc]

lemma isBoolean_iff (v : JsValue) :
    v.isBoolean = true ↔ ∃ b : Bool, v = JsValue.bool b := by
  cases v <;> simp [JsValue.isBoolean]

lemma validateSettings_isValid (r : RawSettings) :
    (SettingsManager.validateSettings r).isValid =
      (r.volume.isNumberInRange 0 100 && r.boost.isNumberInRange 0 200 &&
       r.gradualBoost.isBoolean && r.appOnlyBoost.isBoolean &&
       r.boostEnabled.isBoolean && r.autoVolumeEnabled.isBoolean) := by
  unfold SettingsManager.validateSettings
  cases h1 : r.volume.isNumberInRange 0 100 <;>
  cases h2 : r.boost.isNumberInRange 0 200 <;>
  cases h3 : r.gradualBoost.isBoolean <;>
  cases h4 : r.appOnlyBoost.isBoolean <;>
  cases h5 : r.boostEnabled.isBoolean <;>
  cases h6 : r.autoVolumeEnabled.isBoolean <;>
  simp [h1, h2, h3, h4, h5, h6]

lemma validateSettings_toRaw (s : AppSettings) :
    (SettingsManager.validateSettings s.toRaw).isValid =
      (decide (0 ≤ s.volume) && decide (s.volume ≤ 100) &&
       decide (0 ≤ s.boost) && decide (s.boost ≤ 200)) := by
  rw [validateSettings_isValid]
  simp [AppSettings.toRaw, JsValue.isNumberInRange, JsValue.isBoolean, Bool.and_assoc]

lemma setSetting_cases (init : Bool) (s : AppSettings) (k : SettingKey) (v : k.Val)
    (now : Nat) (sf : Bool) :
    SettingsManager.setSetting init s k v now sf =
        { ok := false, settings := s, events := [], saved := none } ∨
      (init = true ∧
        (SettingsManager.validateSettings (s.set k v).toRaw).isValid = true ∧
        SettingsManager.setSetting init s k v now sf =
          { ok := true, settings := s.set k v, saved := some (s.set k v),
            events := [{ key := k, oldValue := k.toJs (s.get k),
                         newValue := k.toJs v, timestamp := now }] }) := by
  unfold SettingsManager.setSetting
  cases init with
  | false => simp
  | true =>
      cases hv : (SettingsManager.validateSettings (s.set k v).toRaw).isValid with
      | false => simp [hv]
      | true => simp [hv]

lemma setSetting_valid (s : AppSettings) (k : SettingKey) (v : k.Val) (now : Nat) (sf : Bool)
    (h : (SettingsManager.validateSettings (s.set k v).toRaw).isValid = true) :
    SettingsManager.setSetting true s k v now sf =
      { ok := true, settings := s.set k v, saved := some (s.set k v),
        events := [{ key := k, oldValue := k.toJs (s.get k),
                     newValue := k.toJs v, timestamp := now }] } := by
  unfold SettingsManager.setSetting
  simp [h]

/-! ### Claim theorems -/

/-- Claim C1: the Settings Manager validation accepts a candidate record
iff all six fields are present with the correct primitive type, with
`volume` a number in `[0,100]` and `boost` a number in `[0,200]`; any
single violation rejects the whole record. -/
theorem C1_validation_accepts_iff (r : RawSettings) :
    (SettingsManager.validateSettings r).isValid = true ↔
      ((∃ q : ℚ, r.volume = JsValue.num q ∧ 0 ≤ q ∧ q ≤ 100) ∧
       (∃ q : ℚ, r.boost = JsValue.num q ∧ 0 ≤ q ∧ q ≤ 200) ∧
       (∃ b : Bool, r.gradualBoost = JsValue.bool b) ∧
       (∃ b : Bool, r.appOnlyBoost = JsValue.bool b) ∧
       (∃ b : Bool, r.boostEnabled = JsValue.bool b) ∧
       (∃ b : Bool, r.autoVolumeEnabled = JsValue.bool b)) := by
  rw [validateSettings_isValid]
  simp only [Bool.and_eq_true, isNumberInRange_iff, isBoolean_iff, and_assoc]

lemma set_boost_val (s : AppSettings) (x : ℚ) :
    (s.set SettingKey.boost x).boost = x := rfl

lemma jsRound_47_div_10 : jsRound (47 / 10) = 5 := by
  unfold jsRound
  norm_num

/-- Claim C2: a boost write through the slider handler with gradual mode
off stores the written value snapped to the nearest multiple of 10 with
halves rounded up (characterized by the half-open window of width 10
around the stored multiple); with gradual mode on the exact value is
stored.  In particular 47 snaps to 50 when gradual mode is off and stays
47 when it is on. -/
theorem C2_discrete_boost_rounding :
    (∀ (v : ℚ) (init : Bool) (s : AppSettings) (now : Nat) (sf : Bool),
        (handleBoostChange false v init s now sf).ok = true →
        ∃ k : ℤ, (handleBoostChange false v init s now sf).settings.boost = (k : ℚ) * 10 ∧
          (k : ℚ) * 10 - 5 ≤ v ∧ v < (k : ℚ) * 10 + 5) ∧
    (∀ (v : ℚ) (init : Bool) (s : AppSettings) (now : Nat) (sf : Bool),
        (handleBoostChange true v init s now sf).ok = true →
        (handleBoostChange true v init s now sf).settings.boost = v) ∧
    (handleBoostChange false 47 true defaultSettings 0 false).settings.boost = 50 ∧
    (handleBoostChange true 47 true defaultSettings 0 false).settings.boost = 47 := by
  have hgen : ∀ (b : Bool) (v : ℚ) (init : Bool) (s : AppSettings) (now : Nat) (sf : Bool),
      (handleBoostChange b v init s now sf).ok = true →
      (handleBoostChange b v init s now sf).settings.boost =
        (if b then v else (jsRound (v / 10) : ℚ) * 10) := by
    intro b v init s now sf h
    unfold handleBoostChange at h ⊢
    rcases setSetting_cases init s SettingKey.boost
        (if b then v else (jsRound (v / 10) : ℚ) * 10) now sf with hc | ⟨_, _, hc⟩
    · rw [hc] at h; exact absurd h (by simp)
    · rw [hc]; exact set_boost_val ..
  refine ⟨?_, ?_, ?_, ?_⟩
  · intro v init s now sf h
    refine ⟨jsRound (v / 10), ?_, ?_, ?_⟩
    · rw [hgen false v init s now sf h]; simp
    · have h1 : ((jsRound (v / 10) : ℤ) : ℚ) ≤ v / 10 + 1 / 2 := Int.floor_le _
      linarith
    · have h2 : v / 10 + 1 / 2 < (jsRound (v / 10) : ℤ) + 1 := Int.lt_floor_add_one _
      push_cast at h2
      linarith
  · intro v init s now sf h
    rw [hgen true v init s now sf h]; simp
  · unfold handleBoostChange
    simp only [Bool.false_eq_true, if_false, jsRound_47_div_10]
    rw [show (((5 : ℤ) : ℚ) * 10) = 50 by norm_num]
    rw [setSetting_valid _ _ _ _ _ (by rw [validateSettings_toRaw]; decide)]
    rfl
  · unfold handleBoostChange
    simp only [if_true]
    rw [setSetting_valid _ _ _ _ _ (by rw [validateSettings_toRaw]; decide)]
    rfl

/-- Witness for C2: the discrete-mode write of 47 succeeds and the stored
boost is a multiple of 10 whose window contains 47. -/
theorem C2_discrete_boost_rounding_witness :
    (handleBoostChange false 47 true defaultSettings 0 false).ok = true ∧
    ∃ k : ℤ, (handleBoostChange false 47 true defaultSettings 0 false).settings.boost = (k : ℚ) * 10 ∧
      (k : ℚ) * 10 - 5 ≤ (47 : ℚ) ∧ (47 : ℚ) < (k : ℚ) * 10 + 5 := by
  have hok : (handleBoostChange false 47 true defaultSettings 0 false).ok = true := by
    unfold handleBoostChange
    simp only [Bool.false_eq_true, if_false, jsRound_47_div_10]
    rw [show (((5 : ℤ) : ℚ) * 10) = 50 by norm_num]
    rw [setSetting_valid _ _ _ _ _ (by rw [validateSettings_toRaw]; decide)]
  exact ⟨hok, C2_discrete_boost_rounding.1 47 true defaultSettings 0 false hok⟩


/-- A persisted record with the wrong value type for `volume` (a string)
but a valid `boost`, as in the corruption-recovery scenario. -/
def corruptRecord : RawSettings :=
  { volume := .str "abc"
    boost := .num 50
    gradualBoost := .bool false
    appOnlyBoost := .bool false
    boostEnabled := .bool false
    autoVolumeEnabled := .bool false }

/-- Claim C3: whenever the persisted record fails validation, or no
record is stored (which also covers a failed read), `initialize()` ends
with exactly the compiled-in default record in memory, the manager
marked initialized, and that same default record written back to the
store. -/
theorem C3_self_healing_to_defaults (g : SettingsManager.GetOutcome)
    (h : (∃ r, g = SettingsManager.GetOutcome.found r ∧
            (SettingsManager.validateSettings r).isValid = false) ∨
         g = SettingsManager.GetOutcome.notFound ∨
         (∃ m, g = SettingsManager.GetOutcome.threw m)) :
    SettingsManager.initializeResult g = ((defaultSettings, true), some defaultSettings) := by
  rcases h with ⟨r, rfl, hv⟩ | rfl | ⟨m, rfl⟩
  · simp [SettingsManager.initializeResult, SettingsManager.loadSettings, hv]
  · simp [SettingsManager.initializeResult, SettingsManager.loadSettings]
  · simp [SettingsManager.initializeResult, SettingsManager.loadSettings]

/-- Witness for C3: a stored record whose `volume` is the string "abc"
fails validation and initialization self-heals to the full defaults. -/
theorem C3_self_healing_to_defaults_witness :
    ((∃ r, SettingsManager.GetOutcome.found corruptRecord = SettingsManager.GetOutcome.found r ∧
        (SettingsManager.validateSettings r).isValid = false) ∨
      SettingsManager.GetOutcome.found corruptRecord = SettingsManager.GetOutcome.notFound ∨
      (∃ m, SettingsManager.GetOutcome.found corruptRecord = SettingsManager.GetOutcome.threw m)) ∧
    SettingsManager.initializeResult (SettingsManager.GetOutcome.found corruptRecord) =
      ((defaultSettings, true), some defaultSettings) :=
  ⟨Or.inl ⟨corruptRecord, rfl, by decide⟩,
   C3_self_healing_to_defaults _ (Or.inl ⟨corruptRecord, rfl, by decide⟩)⟩

/-- Claim C4 counterexample: with the storage write terminally failing,
`setSetting('boost', 50)` from the default record still reports success,
still mutates the in-memory record (a subsequent `getSetting` returns the
new value 50, not the prior 0), and still emits one change event —
refuting the claim that a failed persistence means the mutation did not
happen. -/
theorem C4_counterexample :
    (SettingsManager.setSetting true defaultSettings SettingKey.boost (50 : ℚ) 0 true).ok = true ∧
    (SettingsManager.setSetting true defaultSettings SettingKey.boost (50 : ℚ) 0 true).settings.boost = 50 ∧
    defaultSettings.boost = 0 ∧
    (SettingsManager.setSetting true defaultSettings SettingKey.boost (50 : ℚ) 0 true).events.length = 1 ∧
    SettingsManager.getSetting true
        (SettingsManager.setSetting true defaultSettings SettingKey.boost (50 : ℚ) 0 true).settings
        SettingKey.boost = 50 := by
  decide

/-- Claim C4 amended: when the persistence of a `setSetting` terminally
fails, the call nevertheless applies the mutation in memory, emits its
change event and reports success — the save outcome is only logged and
has no influence on the result. -/
theorem C4_save_failure_is_ignored (init : Bool) (s : AppSettings) (k : SettingKey)
    (v : k.Val) (now : Nat)
    (h : (SettingsManager.setSetting init s k v now true).ok = true) :
    (SettingsManager.setSetting init s k v now true).settings = s.set k v ∧
    (SettingsManager.setSetting init s k v now true).events.length = 1 ∧
    SettingsManager.setSetting init s k v now true =
      SettingsManager.setSetting init s k v now false := by
  rcases setSetting_cases init s k v now true with hc | ⟨hi, hv, hc⟩
  · rw [hc] at h; exact absurd h (by simp)
  · subst hi
    rw [hc, setSetting_valid _ _ _ _ _ hv]
    exact ⟨rfl, rfl, rfl⟩

/-- Witness for C4 amended: concrete successful write with failing save. -/
theorem C4_save_failure_is_ignored_witness :
    (SettingsManager.setSetting true defaultSettings SettingKey.boost (50 : ℚ) 0 true).ok = true ∧
    ((SettingsManager.setSetting true defaultSettings SettingKey.boost (50 : ℚ) 0 true).settings =
        defaultSettings.set SettingKey.boost (50 : ℚ) ∧
      (SettingsManager.setSetting true defaultSettings SettingKey.boost (50 : ℚ) 0 true).events.length = 1 ∧
      SettingsManager.setSetting true defaultSettings SettingKey.boost (50 : ℚ) 0 true =
        SettingsManager.setSetting true defaultSettings SettingKey.boost (50 : ℚ) 0 false) :=
  ⟨by decide, C4_save_failure_is_ignored true defaultSettings SettingKey.boost 50 0 (by decide)⟩

/-- A running service state with boost enabled but level 0, about to
receive a `SetBoost` command whose enhancer work fails at the first
call site. -/
def preFailState : ServiceState :=
  { audioSessionID := 7
    loudnessEnhancer := some { session := 0, targetGain := 0, enabled := false }
    isBoostEnabled := true
    isAppOnlyBoost := false
    currentBoostLevel := 0 }

/-- Claim C5 counterexample: a `SetBoost(100, true)` command whose
audio-effect operation throws still changes the controller state triple —
`currentBoostLevel` goes 0 to 100 and `isAppOnlyBoost` false to true —
refuting the claim that a failed command leaves the triple at its
pre-command value. -/
theorem C5_counterexample :
    (VolumeBoosterService.setBoost preFailState 100 true (some 0)).currentBoostLevel = 100 ∧
    (VolumeBoosterService.setBoost preFailState 100 true (some 0)).isAppOnlyBoost = true ∧
    preFailState.currentBoostLevel = 0 ∧
    preFailState.isAppOnlyBoost = false := by
  decide

/-- Claim C5 amended: a `SetBoost` whose audio-effect work throws at any
call site has already assigned `currentBoostLevel` and `isAppOnlyBoost`
(leaving `isBoostEnabled` as before), and a failing `SetEnabled` has
already assigned `isBoostEnabled` (leaving the other two as before);
the catch only abandons the audio-session and notification work. -/
theorem C5_failed_command_still_mutates :
    (∀ (st : ServiceState) (level : ℤ) (appOnly : Bool) (n : ℕ),
        (VolumeBoosterService.setBoost st level appOnly (some n)).currentBoostLevel = level ∧
        (VolumeBoosterService.setBoost st level appOnly (some n)).isAppOnlyBoost = appOnly ∧
        (VolumeBoosterService.setBoost st level appOnly (some n)).isBoostEnabled = st.isBoostEnabled) ∧
    (∀ (st : ServiceState) (enabled : Bool) (n : ℕ),
        (VolumeBoosterService.enableBoost st enabled (some n)).isBoostEnabled = enabled ∧
        (VolumeBoosterService.enableBoost st enabled (some n)).currentBoostLevel = st.currentBoostLevel ∧
        (VolumeBoosterService.enableBoost st enabled (some n)).isAppOnlyBoost = st.isAppOnlyBoost) := by
  constructor
  · intro st level appOnly n
    unfold VolumeBoosterService.setBoost
    dsimp only
    refine ⟨?_, ?_, ?_⟩ <;> (repeat' split) <;> rfl
  · intro st enabled n
    unfold VolumeBoosterService.enableBoost
    dsimp only
    refine ⟨?_, ?_, ?_⟩ <;> cases st.loudnessEnhancer <;> (repeat' split) <;> rfl

/-- Claim C9: `SetEnabled` modifies only `isBoostEnabled` — level and
scope keep their prior values — and afterwards `isBoostActive()` returns
enabled AND level positive; in particular after `SetBoost(100, _)` then
`SetEnabled(false)` the level still reads 100 while the boost is
inactive. -/
theorem C9_setEnabled_frame :
    (∀ (st : ServiceState) (enabled : Bool) (failAt : Option Nat),
        (VolumeBoosterService.enableBoost st enabled failAt).currentBoostLevel = st.currentBoostLevel ∧
        (VolumeBoosterService.enableBoost st enabled failAt).isAppOnlyBoost = st.isAppOnlyBoost ∧
        (VolumeBoosterService.enableBoost st enabled failAt).isBoostEnabled = enabled ∧
        VolumeBoosterService.isBoostActive (VolumeBoosterService.enableBoost st enabled failAt) =
          (enabled && decide (st.currentBoostLevel > 0))) ∧
    (∀ (st : ServiceState) (appOnly : Bool),
        VolumeBoosterService.getCurrentBoostLevel
            (VolumeBoosterService.enableBoost
              (VolumeBoosterService.setBoost st 100 appOnly none) false none) = 100 ∧
        VolumeBoosterService.isBoostActive
            (VolumeBoosterService.enableBoost
              (VolumeBoosterService.setBoost st 100 appOnly none) false none) = false) := by
  have hframe : ∀ (st : ServiceState) (enabled : Bool) (failAt : Option Nat),
      (VolumeBoosterService.enableBoost st enabled failAt).currentBoostLevel = st.currentBoostLevel ∧
      (VolumeBoosterService.enableBoost st enabled failAt).isAppOnlyBoost = st.isAppOnlyBoost ∧
      (VolumeBoosterService.enableBoost st enabled failAt).isBoostEnabled = enabled := by
    intro st enabled failAt
    unfold VolumeBoosterService.enableBoost
    dsimp only
    refine ⟨?_, ?_, ?_⟩ <;> cases st.loudnessEnhancer <;> (repeat' split) <;> rfl
  have hlevel : ∀ (st : ServiceState) (level : ℤ) (appOnly : Bool),
      (VolumeBoosterService.setBoost st level appOnly none).currentBoostLevel = level := by
    intro st level appOnly
    unfold VolumeBoosterService.setBoost
    dsimp only
    (repeat' split) <;> rfl
  constructor
  · intro st enabled failAt
    obtain ⟨h1, h2, h3⟩ := hframe st enabled failAt
    refine ⟨h1, h2, h3, ?_⟩
    unfold VolumeBoosterService.isBoostActive
    rw [h1, h3]
  · intro st appOnly
    obtain ⟨h1, _, h3⟩ := hframe (VolumeBoosterService.setBoost st 100 appOnly none) false none
    constructor
    · unfold VolumeBoosterService.getCurrentBoostLevel
      rw [h1, hlevel]
    · unfold VolumeBoosterService.isBoostActive
      rw [h3]
      simp

/-- An attempt oracle that fails every attempt with the message for its
attempt number. -/
def failingAttempts (m1 m2 m3 : String) : Nat → AttemptOutcome Unit :=
  fun n => .err (if n = 1 then m1 else if n = 2 then m2 else m3)

/-- Same oracle for `getItem` attempts. -/
def failingGetAttempts (m1 m2 m3 : String) : Nat → AttemptOutcome (Option RawSettings) :=
  fun n => .err (if n = 1 then m1 else if n = 2 then m2 else m3)

/-- Claim C7 counterexample: a `setItem` call on an uninitialized store
whose lazy `initialize()` self-test throws propagates that exception
across the public boundary instead of returning a structured failure —
refuting the part of the claim asserting the no-throw guarantee holds
under lazy initialization. -/
theorem C7_counterexample :
    StorageManager.setItem "k" false (some "boom") (fun _ => AttemptOutcome.ok ()) =
      Except.error "Storage initialization failed: boom" := rfl

/-- Claim C7 amended: once initialization has succeeded (or when lazy
initialization succeeds), `set`/`get`/`remove` never raise across the
public boundary, and after exhausting the three attempts they return a
structured failure carrying the last underlying error message; but a
failing lazy initialization rethrows out of the operation. -/
theorem C7_retry_no_throw :
    (∀ (key : String) (itf : Option String) (f : Nat → AttemptOutcome Unit),
        ∃ r, StorageManager.setItem key true itf f = Except.ok r) ∧
    (∀ (key : String) (f : Nat → AttemptOutcome Unit),
        ∃ r, StorageManager.setItem key false none f = Except.ok r) ∧
    (∀ (key : String) (itf : Option String) (f : Nat → AttemptOutcome (Option RawSettings)),
        ∃ r, StorageManager.getItem key true itf f = Except.ok r) ∧
    (∀ (key : String) (itf : Option String) (f : Nat → AttemptOutcome Unit),
        ∃ r, StorageManager.removeItem key true itf f = Except.ok r) ∧
    (∀ (key m1 m2 m3 : String),
        StorageManager.setItem key true none (failingAttempts m1 m2 m3) =
          Except.ok { success := false, error := some ("Failed to set item " ++ key ++ " after 3 attempts: " ++ m3) }) ∧
    (∀ (key m1 m2 m3 : String),
        StorageManager.getItem key true none (failingGetAttempts m1 m2 m3) =
          Except.ok { success := false, error := some ("Failed to get item " ++ key ++ " after 3 attempts: " ++ m3) }) ∧
    (∀ (key m1 m2 m3 : String),
        StorageManager.removeItem key true none (failingAttempts m1 m2 m3) =
          Except.ok { success := false, error := some ("Failed to remove item " ++ key ++ " after 3 attempts: " ++ m3) }) := by
  refine ⟨?_, ?_, ?_, ?_, ?_, ?_, ?_⟩
  · intro key itf f
    unfold StorageManager.setItem
    rcases hr : StorageManager.runRetry f 1 StorageManager.retryAttempts none with a | s <;>
      simp [hr]
  · intro key f
    unfold StorageManager.setItem StorageManager.initializeStorage
    rcases hr : StorageManager.runRetry f 1 StorageManager.retryAttempts none with a | s <;>
      simp [hr]
  · intro key itf f
    unfold StorageManager.getItem
    rcases hr : StorageManager.runRetry f 1 StorageManager.retryAttempts none with a | s
    · cases a <;> simp [hr]
    · simp [hr]
  · intro key itf f
    unfold StorageManager.removeItem
    rcases hr : StorageManager.runRetry f 1 StorageManager.retryAttempts none with a | s <;>
      simp [hr]
  · intro key m1 m2 m3
    rfl
  · intro key m1 m2 m3
    rfl
  · intro key m1 m2 m3
    rfl

/-- Claim C8 counterexample: `clearSettings` invoked while the manager is
uninitialized still issues the durable remove and reports the remove
outcome (here: success) — refuting the claim that every write operation
is rejected with no effect on persisted state while Uninitialized. -/
theorem C8_counterexample :
    (SettingsManager.clearSettings false true).1 = true ∧
    (SettingsManager.clearSettings false true).2 = true := by
  decide

/-- Claim C8 amended: while Uninitialized, reads return the compiled-in
defaults, and `setSetting`/`setMultipleSettings`/`resetToDefaults` are
rejected with no effect and report failure; but `clearSettings` performs
no initialization check, always issues the durable remove, and returns
that remove's outcome. -/
theorem C8_uninitialized_behaviour :
    (∀ (s : AppSettings) (k : SettingKey),
        SettingsManager.getSetting false s k = defaultSettings.get k) ∧
    (∀ s : AppSettings, SettingsManager.getAllSettings false s = defaultSettings) ∧
    (∀ (s : AppSettings) (k : SettingKey) (v : k.Val) (now : Nat) (sf : Bool),
        SettingsManager.setSetting false s k v now sf =
          { ok := false, settings := s, events := [], saved := none }) ∧
    (∀ (s : AppSettings) (p : SettingsManager.PartialSettings) (now : Nat) (sf : Bool),
        SettingsManager.setMultipleSettings false s p now sf =
          { ok := false, settings := s, events := [], saved := none }) ∧
    (∀ (s : AppSettings) (now : Nat) (sf : Bool),
        SettingsManager.resetToDefaults false s now sf =
          { ok := false, settings := s, events := [], saved := none }) ∧
    (∀ removeOk : Bool, SettingsManager.clearSettings false removeOk = (removeOk, true)) := by
  refine ⟨?_, ?_, ?_, ?_, ?_, ?_⟩ <;> intros <;> rfl

lemma removeChangeListener_eq_erase (ls : List Nat) (l : Nat) :
    SettingsManager.removeChangeListener ls l = ls.erase l := by
  unfold SettingsManager.removeChangeListener
  by_cases hm : l ∈ ls
  · rw [if_pos (List.indexOf_lt_length.mpr hm), List.eraseIdx_indexOf_eq_erase]
  · rw [if_neg (by simpa using fun hlt => hm (List.indexOf_lt_length.mp hlt)),
      List.erase_of_not_mem hm]

/-- Claim C10: duplicate listener registrations are admitted — a listener
registered twice is invoked twice per event; one `removeChangeListener`
call removes exactly the first matching registration (`indexOf` then
`splice`), so the listener keeps receiving events until removed as many
times as it was added. -/
theorem C10_duplicate_listeners :
    (∀ (ls : List Nat) (l : Nat),
        (SettingsManager.notifyInvocations
            (SettingsManager.addChangeListener (SettingsManager.addChangeListener ls l) l)).count l =
          ls.count l + 2) ∧
    (∀ (ls : List Nat) (l : Nat),
        SettingsManager.removeChangeListener ls l = ls.erase l) ∧
    (∀ (ls : List Nat) (l : Nat),
        (SettingsManager.notifyInvocations
            (SettingsManager.removeChangeListener
              (SettingsManager.addChangeListener (SettingsManager.addChangeListener ls l) l) l)).count l =
          ls.count l + 1) ∧
    (∀ (ls : List Nat) (l : Nat),
        (SettingsManager.notifyInvocations
            (SettingsManager.removeChangeListener
              (SettingsManager.removeChangeListener
                (SettingsManager.addChangeListener (SettingsManager.addChangeListener ls l) l) l) l)).count l =
          ls.count l) := by
  have hadd2 : ∀ (ls : List Nat) (l : Nat),
      (SettingsManager.addChangeListener (SettingsManager.addChangeListener ls l) l).count l =
        ls.count l + 2 := by
    intro ls l
    unfold SettingsManager.addChangeListener
    simp [List.count_append]
  refine ⟨?_, removeChangeListener_eq_erase, ?_, ?_⟩
  · intro ls l
    exact hadd2 ls l
  · intro ls l
    rw [SettingsManager.notifyInvocations, removeChangeListener_eq_erase,
      List.count_erase_self, hadd2]
    omega
  · intro ls l
    rw [SettingsManager.notifyInvocations, removeChangeListener_eq_erase,
      removeChangeListener_eq_erase, List.count_erase_self, List.count_erase_self, hadd2]
    omega

/-- The value the partial record holds for a key, if present. -/
def SettingsManager.PartialSettings.getOpt (p : SettingsManager.PartialSettings) :
    (k : SettingKey) → Option k.Val
  | .volume => p.volume
  | .boost => p.boost
  | .gradualBoost => p.gradualBoost
  | .appOnlyBoost => p.appOnlyBoost
  | .boostEnabled => p.boostEnabled
  | .autoVolumeEnabled => p.autoVolumeEnabled

lemma mem_keys_iff (p : SettingsManager.PartialSettings) (k : SettingKey) :
    k ∈ p.keys ↔ (p.getOpt k).isSome = true := by
  cases k <;>
    unfold SettingsManager.PartialSettings.keys SettingsManager.PartialSettings.getOpt <;>
    split_ifs <;> simp_all

lemma keys_nodup (p : SettingsManager.PartialSettings) : p.keys.Nodup := by
  unfold SettingsManager.PartialSettings.keys
  split_ifs <;> decide

lemma allKeys_nodup : SettingsManager.allKeys.Nodup := by decide

lemma mem_allKeys (k : SettingKey) : k ∈ SettingsManager.allKeys := by cases k <;> decide

lemma mergeInto_get_of_none (p : SettingsManager.PartialSettings) (s : AppSettings)
    (k : SettingKey) (h : p.getOpt k = none) : (p.mergeInto s).get k = s.get k := by
  cases k <;>
    simp only [SettingsManager.PartialSettings.getOpt] at h <;>
    simp [SettingsManager.PartialSettings.mergeInto, AppSettings.get, h]

lemma countP_changedEvents (keys : List SettingKey) (oldS newS : AppSettings) (now : Nat)
    (k : SettingKey) (hnd : keys.Nodup) :
    (SettingsManager.changedEvents keys oldS newS now).countP (fun e => e.key == k) =
      if k ∈ keys ∧ ¬ oldS.get k = newS.get k then 1 else 0 := by
  induction keys with
  | nil => simp [SettingsManager.changedEvents]
  | cons a ks ih =>
      have ha : a ∉ ks := (List.nodup_cons.mp hnd).1
      have ih' := ih (List.nodup_cons.mp hnd).2
      unfold SettingsManager.changedEvents at ih' ⊢
      rw [List.filterMap_cons]
      by_cases hch : oldS.get a = newS.get a
      · rw [if_pos hch]
        dsimp only
        rw [ih']
        by_cases hk : k = a
        · subst hk
          rw [if_neg (fun hmem => ha hmem.1), if_neg (fun hcon => hcon.2 hch)]
        · simp only [List.mem_cons, hk, false_or]
      · rw [if_neg hch]
        dsimp only
        rw [List.countP_cons, ih']
        by_cases hk : k = a
        · subst hk
          rw [if_neg (fun hmem => ha hmem.1)]
          simp [hch]
        · have hak : ¬(a = k) := fun h => hk h.symm
          simp only [List.mem_cons, hk, false_or, beq_iff_eq, hak, if_false, Nat.add_zero]

lemma setMultipleSettings_cases (init : Bool) (s : AppSettings)
    (p : SettingsManager.PartialSettings) (now : Nat) (sf : Bool) :
    SettingsManager.setMultipleSettings init s p now sf =
        { ok := false, settings := s, events := [], saved := none } ∨
      (init = true ∧
        SettingsManager.setMultipleSettings init s p now sf =
          { ok := true, settings := p.mergeInto s, saved := some (p.mergeInto s),
            events := SettingsManager.changedEvents p.keys s (p.mergeInto s) now }) := by
  unfold SettingsManager.setMultipleSettings
  cases init with
  | false => simp
  | true =>
      cases hv : (SettingsManager.validateSettings (p.mergeInto s).toRaw).isValid with
      | false => simp [hv]
      | true => simp [hv]

lemma resetToDefaults_ready (s : AppSettings) (now : Nat) (sf : Bool) :
    SettingsManager.resetToDefaults true s now sf =
      { ok := true, settings := defaultSettings, saved := some defaultSettings,
        events := SettingsManager.changedEvents SettingsManager.allKeys s defaultSettings now } := rfl

/-- Claim C6: a successful `setSetting` emits exactly one change event,
also when the written value equals the current one (demonstrated on
`volume := 100` from the default record, whose volume already is 100);
`setMultipleSettings` and `resetToDefaults` emit exactly one event per
field whose value actually changes and none for unchanged fields. -/
theorem C6_event_emission_policy :
    (∀ (init : Bool) (s : AppSettings) (k : SettingKey) (v : k.Val) (now : Nat) (sf : Bool),
        (SettingsManager.setSetting init s k v now sf).events.length =
          (if (SettingsManager.setSetting init s k v now sf).ok = true then 1 else 0)) ∧
    (SettingsManager.setSetting true defaultSettings SettingKey.volume (100 : ℚ) 0 false).events.length = 1 ∧
    (∀ (init : Bool) (s : AppSettings) (p : SettingsManager.PartialSettings)
        (now : Nat) (sf : Bool) (k : SettingKey),
        ((SettingsManager.setMultipleSettings init s p now sf).events.countP
            (fun e => e.key == k)) =
          (if (SettingsManager.setMultipleSettings init s p now sf).ok = true ∧
              ¬ (SettingsManager.setMultipleSettings init s p now sf).settings.get k = s.get k
           then 1 else 0)) ∧
    (∀ (init : Bool) (s : AppSettings) (now : Nat) (sf : Bool) (k : SettingKey),
        ((SettingsManager.resetToDefaults init s now sf).events.countP
            (fun e => e.key == k)) =
          (if (SettingsManager.resetToDefaults init s now sf).ok = true ∧
              ¬ defaultSettings.get k = s.get k
           then 1 else 0)) := by
  refine ⟨?_, by decide, ?_, ?_⟩
  · intro init s k v now sf
    rcases setSetting_cases init s k v now sf with hc | ⟨_, _, hc⟩ <;> rw [hc] <;> simp
  · intro init s p now sf k
    rcases setMultipleSettings_cases init s p now sf with hc | ⟨_, hc⟩
    · rw [hc]; simp
    · rw [hc]
      dsimp only
      rw [countP_changedEvents _ _ _ _ _ (keys_nodup p)]
      rcases eq_or_ne ((p.mergeInto s).get k) (s.get k) with h | h
      · rw [if_neg (fun hcon => hcon.2 h.symm), if_neg (fun hcon => hcon.2 h)]
      · have hmem : k ∈ p.keys := by
          cases ho : p.getOpt k with
          | none => exact absurd (mergeInto_get_of_none p s k ho) h
          | some x => exact (mem_keys_iff p k).mpr (by rw [ho]; rfl)
        rw [if_pos ⟨hmem, fun he => h he.symm⟩, if_pos ⟨rfl, h⟩]
  · intro init s now sf k
    cases init with
    | false =>
        have hc : SettingsManager.resetToDefaults false s now sf =
            { ok := false, settings := s, events := [], saved := none } := rfl
        rw [hc]; simp
    | true =>
        rw [resetToDefaults_ready]
        dsimp only
        rw [countP_changedEvents _ _ _ _ _ allKeys_nodup]
        rcases eq_or_ne (defaultSettings.get k) (s.get k) with h | h
        · rw [if_neg (fun hcon => hcon.2 h.symm), if_neg (fun hcon => hcon.2 h)]
        · rw [if_pos ⟨mem_allKeys k, fun he => h he.symm⟩, if_pos ⟨rfl, h⟩]
